import Mathlib

/-!
# Verification of the Storefront Session Controller (`src/context/AppContext.jsx`)

A shallow embedding of the state-management module of this repository.
The module holds client session state (user, seller flag, products, cart,
connectivity) and exposes action functions.  Each JavaScript action function
is translated to a pure Lean function over an explicit `AppState`, with the
outcome of its (at most one) network request supplied as an explicit
parameter, and its observable effects (issued requests, toast notifications)
returned alongside the new state.  JavaScript objects used as string-keyed
maps become association lists; JavaScript numbers used as quantities become
`Int`, and prices become `ℚ` (exact arithmetic standing in for JS numbers).
Console logging is not modelled; request bodies other than the cart payload
are not modelled.
-/

set_option maxHeartbeats 1000000

namespace Velvoria

/-- A cart is a JavaScript object mapping product-id keys to number
quantities: an association list with (in reachable states) unique keys. -/
abbrev Cart := List (String × Int)

/-- `cartData[itemId]` read: value of the first entry with this key. -/
def getKey (c : Cart) (k : String) : Option Int :=
  (c.find? (fun kv => kv.1 == k)).map (fun kv => kv.2)

/-- `cartData[itemId] = v` write: replace the value in place if the key is
present, otherwise append the new key (JS property-creation order). -/
def setKey (c : Cart) (k : String) (v : Int) : Cart :=
  if c.any (fun kv => kv.1 == k) then
    c.map (fun kv => if kv.1 == k then (k, v) else kv)
  else
    c ++ [(k, v)]

/-- `delete cartData[itemId]`. -/
def delKey (c : Cart) (k : String) : Cart :=
  c.filter (fun kv => kv.1 != k)

/-- JS truthiness of `cartData[itemId]`: present and not `0`
(`undefined` and `0` are falsy). -/
def truthyAt (c : Cart) (k : String) : Bool :=
  match getKey c k with
  | some v => v != 0
  | none => false

/-- `User` as delivered by the backend (`data.user`); `cart` is `none` when
the JSON field is absent (JS `undefined`). -/
structure User where
  uid : String
  name : String
  email : String
  cart : Option Cart
  deriving Repr, DecidableEq

/-- `Product` as delivered by `/api/product/list`; `offerPrice` is optional. -/
structure Product where
  pid : String
  price : ℚ
  offerPrice : Option ℚ
  deriving Repr, DecidableEq

/-- The React state of `AppContextProvider`: one field per `useState` hook
(except `navigate`, which is routing plumbing). -/
structure AppState where
  user : Option User
  isSeller : Bool
  showUserLogin : Bool
  products : List Product
  cartItems : Cart
  searchQuery : String
  backendConnected : Bool
  backendChecking : Bool
  loading : Bool
  deriving Repr, DecidableEq

/-- Toast notifications emitted through `react-hot-toast`. -/
inductive Toast
  | success (msg : String)
  | error (msg : String)
  deriving Repr, DecidableEq

/-- Backend HTTP requests an action can issue (paths from the source). -/
inductive Request
  | health
  | productList
  | userIsAuth
  | sellerIsAuth
  | sellerLoginReq
  | userLoginReq
  | userRegisterReq
  | googleAuthReq
  | logoutReq
  | cartUpdate (cartItems : Cart)
  deriving Repr, DecidableEq

/-- Result of running one action: the new React state, the backend requests
it issued, and the toasts it showed, in order. -/
structure StepResult where
  state : AppState
  requests : List Request
  toasts : List Toast
  deriving Repr, DecidableEq

/-- Outcome of an awaited `axios.post` whose response body the code does not
inspect (cart sync, logout): resolved or rejected. -/
inductive PushOutcome
  | ok
  | err
  deriving Repr, DecidableEq

/-- JS `a || b` on an optional string: `undefined` and `""` are falsy. -/
def jsOrString (m : Option String) (d : String) : String :=
  match m with
  | some s => if s == "" then d else s
  | none => d

/-- JS `a || b` on an optional price: `undefined` and `0` are falsy. -/
def jsOrPrice (o : Option ℚ) (d : ℚ) : ℚ :=
  match o with
  | some v => if v == 0 then d else v
  | none => d

/-! ## Cart mutation actions -/

/-- The cart mapping `addToCart` computes: `cartData[itemId] += 1` when the
entry is truthy, else `cartData[itemId] = 1`. -/
def newCartAdd (c : Cart) (itemId : String) : Cart :=
  if truthyAt c itemId then
    setKey c itemId ((getKey c itemId).getD 0 + 1)
  else
    setKey c itemId 1

/-- The cart mapping `removeFromCart` computes once the entry is truthy:
`cartData[itemId] -= 1`, deleting the key when the result is exactly 0. -/
def newCartRemove (c : Cart) (itemId : String) : Cart :=
  let v := (getKey c itemId).getD 0 - 1
  if v == 0 then delKey c itemId else setKey c itemId v

/-- `addToCart(itemId)`: blocked (login prompt) when no user; otherwise
increments the entry (creating it at 1), applies the new mapping locally,
and, if connected, pushes the full cart; a push failure only toasts. -/
def addToCart (s : AppState) (itemId : String) (o : PushOutcome) : StepResult :=
  match s.user with
  | none =>
      ⟨{ s with showUserLogin := true }, [],
        [Toast.error "Please login to add items to cart"]⟩
  | some _ =>
      let cartData := newCartAdd s.cartItems itemId
      let s1 := { s with cartItems := cartData }
      if s.backendConnected then
        match o with
        | PushOutcome.ok =>
            ⟨s1, [Request.cartUpdate cartData], [Toast.success "Added to cart"]⟩
        | PushOutcome.err =>
            ⟨s1, [Request.cartUpdate cartData],
              [Toast.success "Added to cart",
               Toast.error "Cart updated locally but failed to sync with server"]⟩
      else
        ⟨s1, [], [Toast.success "Added to cart"]⟩

/-- `updateCartItem(itemId, quantity)`: stores the given quantity
unconditionally (no user check, no clamping), then pushes the cart when
connected and a user is present; a push failure is only logged. -/
def updateCartItem (s : AppState) (itemId : String) (quantity : Int)
    (_o : PushOutcome) : StepResult :=
  let cartData := setKey s.cartItems itemId quantity
  let s1 := { s with cartItems := cartData }
  if s.backendConnected && s.user.isSome then
    ⟨s1, [Request.cartUpdate cartData], []⟩
  else
    ⟨s1, [], []⟩

/-- `removeFromCart(itemId)`: when the entry is truthy, decrements it,
deleting the key if the result is exactly 0, applies the mapping locally and
pushes it when connected with a user; otherwise does nothing at all. -/
def removeFromCart (s : AppState) (itemId : String) (_o : PushOutcome) :
    StepResult :=
  if truthyAt s.cartItems itemId then
    let cartData := newCartRemove s.cartItems itemId
    let s1 := { s with cartItems := cartData }
    if s.backendConnected && s.user.isSome then
      ⟨s1, [Request.cartUpdate cartData], [Toast.success "Removed from cart"]⟩
    else
      ⟨s1, [], [Toast.success "Removed from cart"]⟩
  else
    ⟨s, [], []⟩

/-- One cart mutation of the exposed surface, with its arguments. -/
inductive CartAction
  | add (itemId : String)
  | update (itemId : String) (quantity : Int)
  | remove (itemId : String)
  deriving Repr, DecidableEq

/-- Apply one cart mutation (with its backend push outcome) to the state. -/
def applyCartAction (s : AppState) : CartAction × PushOutcome → AppState
  | (CartAction.add i, o) => (addToCart s i o).state
  | (CartAction.update i q, o) => (updateCartItem s i q o).state
  | (CartAction.remove i, o) => (removeFromCart s i o).state

/-- Run a sequence of cart mutations, each with its push outcome. -/
def runCartActions (s : AppState) (acts : List (CartAction × PushOutcome)) :
    AppState :=
  acts.foldl applyCartAction s

/-- The cart invariant claimed by the spec: every stored quantity is a
positive integer (non-negative and never 0). -/
def CartInv (c : Cart) : Prop := ∀ kv ∈ c, 0 < kv.2

instance (c : Cart) : Decidable (CartInv c) :=
  List.decidableBAll _ c

/-! ## Authentication actions -/

/-- Outcome of an auth request whose success body carries a user:
`ok u` is `data.success` truthy with `data.user = u`; `rejected m` is
`data.success` falsy with optional `data.message`; `netErr m` is a thrown
request error with optional `error.response.data.message`. -/
inductive LoginResult
  | ok (u : User)
  | rejected (message : Option String)
  | netErr (message : Option String)
  deriving Repr, DecidableEq

/-- The `{ success, message }` object the auth actions return. -/
structure AuthReturn where
  success : Bool
  message : Option String
  deriving Repr, DecidableEq

/-- `userLogin(email, password)`: on success replaces `user`, replaces
`cartItems` with `data.user.cart || {}` and clears the login prompt; on any
failure only toasts.  (JS renders an absent rejection message as the string
"undefined" in the toast.) -/
def userLogin (s : AppState) (res : LoginResult) : StepResult × AuthReturn :=
  if !s.backendConnected then
    (⟨s, [], [Toast.error "Backend not available. Please check server connection."]⟩,
      ⟨false, some "Backend not available"⟩)
  else
    match res with
    | LoginResult.ok u =>
        (⟨{ s with user := some u,
                   cartItems := u.cart.getD [],
                   showUserLogin := false },
          [Request.userLoginReq], [Toast.success "Login successful!"]⟩,
          ⟨true, none⟩)
    | LoginResult.rejected m =>
        (⟨s, [Request.userLoginReq], [Toast.error (m.getD "undefined")]⟩,
          ⟨false, m⟩)
    | LoginResult.netErr m =>
        match m with
        | some msg =>
            (⟨s, [Request.userLoginReq], [Toast.error msg]⟩, ⟨false, some msg⟩)
        | none =>
            (⟨s, [Request.userLoginReq], [Toast.error "Login failed"]⟩,
              ⟨false, some "Login failed"⟩)

/-- `userRegister(userData)`: on success calls `setUser(data.user)` only —
`cartItems` is left as it was; on any failure only toasts. -/
def userRegister (s : AppState) (res : LoginResult) : StepResult × AuthReturn :=
  if !s.backendConnected then
    (⟨s, [], [Toast.error "Backend not available. Please check server connection."]⟩,
      ⟨false, some "Backend not available"⟩)
  else
    match res with
    | LoginResult.ok u =>
        (⟨{ s with user := some u },
          [Request.userRegisterReq], [Toast.success "Registration successful!"]⟩,
          ⟨true, none⟩)
    | LoginResult.rejected m =>
        (⟨s, [Request.userRegisterReq], [Toast.error (m.getD "undefined")]⟩,
          ⟨false, m⟩)
    | LoginResult.netErr m =>
        match m with
        | some msg =>
            (⟨s, [Request.userRegisterReq], [Toast.error msg]⟩,
              ⟨false, some msg⟩)
        | none =>
            (⟨s, [Request.userRegisterReq], [Toast.error "Registration failed"]⟩,
              ⟨false, some "Registration failed"⟩)

/-- `googleLogin(credentialResponse)`: on success replaces `user` and
`cartItems` together (the prompt flag is not touched); returns a plain
boolean. -/
def googleLogin (s : AppState) (res : LoginResult) : StepResult × Bool :=
  if !s.backendConnected then
    (⟨s, [], [Toast.error "Backend not available. Please check server connection."]⟩,
      false)
  else
    match res with
    | LoginResult.ok u =>
        (⟨{ s with user := some u, cartItems := u.cart.getD [] },
          [Request.googleAuthReq], [Toast.success "Google login successful!"]⟩,
          true)
    | LoginResult.rejected m =>
        (⟨s, [Request.googleAuthReq],
          [Toast.error (jsOrString m "Google login failed")]⟩, false)
    | LoginResult.netErr _ =>
        (⟨s, [Request.googleAuthReq], [Toast.error "Google login failed"]⟩,
          false)

/-- `userLogout()`: best-effort backend notification when connected (its
failure is only logged), then always clears `user`, `cartItems`, `isSeller`
and toasts a confirmation. -/
def userLogout (s : AppState) (_o : PushOutcome) : StepResult :=
  ⟨{ s with user := none, cartItems := [], isSeller := false },
    if s.backendConnected then [Request.logoutReq] else [],
    [Toast.success "Logged out successfully"]⟩

/-! ## Connectivity probe and data loaders -/

/-- Outcome of the awaited health-check call: an HTTP response with its
status code, a network-level error, or a timeout. -/
inductive HealthOutcome
  | response (status : Nat)
  | netError
  | timeout
  deriving Repr, DecidableEq

/-- `checkBackendConnection()`: with no configured backend URL it reports
disconnected without any request.  Otherwise it issues the health request
with `validateStatus: status < 500`, so any response below 500 resolves
(connected := true) and a 5xx response, network error or timeout rejects
(connected := false).  `backendChecking` ends false on every path and the
returned boolean mirrors the connectivity flag.  (The conditional
`error.code`-based toast and console logging are not modelled.) -/
def checkBackendConnection (s : AppState) (hasBackendUrl : Bool)
    (o : HealthOutcome) : StepResult × Bool :=
  if !hasBackendUrl then
    (⟨{ s with backendConnected := false, backendChecking := false }, [], []⟩,
      false)
  else
    match o with
    | HealthOutcome.response status =>
        if status < 500 then
          (⟨{ s with backendConnected := true, backendChecking := false },
            [Request.health], []⟩, true)
        else
          (⟨{ s with backendConnected := false, backendChecking := false },
            [Request.health], []⟩, false)
    | HealthOutcome.netError =>
        (⟨{ s with backendConnected := false, backendChecking := false },
          [Request.health], []⟩, false)
    | HealthOutcome.timeout =>
        (⟨{ s with backendConnected := false, backendChecking := false },
          [Request.health], []⟩, false)

/-- Outcome of `/api/product/list`: a response `{ success, products }`
(either field may be missing/falsy) or a thrown request error. -/
inductive ProductsOutcome
  | ok (success : Bool) (products : Option (List Product))
  | err
  deriving Repr, DecidableEq

/-- `fetchProducts()`: disconnected ⇒ no request, `products := []`; connected
⇒ one request, products replaced wholesale on a success body, `[]` otherwise;
`loading` ends false on every path. -/
def fetchProducts (s : AppState) (o : ProductsOutcome) : StepResult :=
  if !s.backendConnected then
    ⟨{ s with products := [], loading := false }, [], []⟩
  else
    match o with
    | ProductsOutcome.ok true (some ps) =>
        ⟨{ s with products := ps, loading := false }, [Request.productList], []⟩
    | ProductsOutcome.ok true none =>
        ⟨{ s with products := [], loading := false }, [Request.productList], []⟩
    | ProductsOutcome.ok false _ =>
        ⟨{ s with products := [], loading := false }, [Request.productList], []⟩
    | ProductsOutcome.err =>
        ⟨{ s with products := [], loading := false }, [Request.productList],
          [Toast.error "Failed to load products"]⟩

/-- Outcome of `/api/user/is-auth`. -/
inductive UserAuthOutcome
  | ok (success : Bool) (user : Option User)
  | err
  deriving Repr, DecidableEq

/-- `fetchUser()`: disconnected ⇒ no request and no state change; connected ⇒
one request; only a success body carrying a user replaces `user` and
`cartItems` (`user.cart || {}`); every other outcome changes nothing. -/
def fetchUser (s : AppState) (o : UserAuthOutcome) : StepResult :=
  if !s.backendConnected then
    ⟨s, [], []⟩
  else
    match o with
    | UserAuthOutcome.ok true (some u) =>
        ⟨{ s with user := some u, cartItems := u.cart.getD [] },
          [Request.userIsAuth], []⟩
    | UserAuthOutcome.ok true none => ⟨s, [Request.userIsAuth], []⟩
    | UserAuthOutcome.ok false _ => ⟨s, [Request.userIsAuth], []⟩
    | UserAuthOutcome.err => ⟨s, [Request.userIsAuth], []⟩

/-- Outcome of `/api/seller/is-auth`. -/
inductive SellerAuthOutcome
  | ok (success : Bool)
  | err
  deriving Repr, DecidableEq

/-- `fetchSeller()`: disconnected ⇒ no request, `isSeller := false`;
connected ⇒ one request, `isSeller := data.success`, false on error. -/
def fetchSeller (s : AppState) (o : SellerAuthOutcome) : StepResult :=
  if !s.backendConnected then
    ⟨{ s with isSeller := false }, [], []⟩
  else
    match o with
    | SellerAuthOutcome.ok true => ⟨{ s with isSeller := true }, [Request.sellerIsAuth], []⟩
    | SellerAuthOutcome.ok false => ⟨{ s with isSeller := false }, [Request.sellerIsAuth], []⟩
    | SellerAuthOutcome.err => ⟨{ s with isSeller := false }, [Request.sellerIsAuth], []⟩

/-! ## Derived cart queries -/

/-- `totalCartAmount()`: iterates the cart, looks each id up in `products`,
adds `quantity * (itemInfo.offerPrice || itemInfo.price)` when the product is
found and the quantity is `> 0`, then applies
`Math.floor(totalAmount * 100) / 100`. -/
def totalCartAmount (ps : List Product) (c : Cart) : ℚ :=
  let totalAmount := c.foldl (fun acc kv =>
    match ps.find? (fun p => p.pid == kv.1) with
    | some itemInfo =>
        if 0 < kv.2 then acc + (kv.2 : ℚ) * jsOrPrice itemInfo.offerPrice itemInfo.price
        else acc
    | none => acc) 0
  (⌊totalAmount * 100⌋ : ℚ) / 100

/-- Follows the spec's words, for comparison with `totalCartAmount`:
"Σ(quantity × effective price) floored to 2 decimals … items absent from the
product list contribute 0", with "effective price = offerPrice if present
else price". -/
def specTotalCartAmount (ps : List Product) (c : Cart) : ℚ :=
  let total := c.foldl (fun acc kv =>
    match ps.find? (fun p => p.pid == kv.1) with
    | some p => acc + (kv.2 : ℚ) * p.offerPrice.getD p.price
    | none => acc) 0
  (⌊total * 100⌋ : ℚ) / 100

/-- Contribution of one cart entry under the code's actual rule: product
found and quantity positive ⇒ quantity times `offerPrice || price`, else 0. -/
def entryContribution (ps : List Product) (kv : String × Int) : ℚ :=
  match ps.find? (fun p => p.pid == kv.1) with
  | some itemInfo =>
      if 0 < kv.2 then (kv.2 : ℚ) * jsOrPrice itemInfo.offerPrice itemInfo.price
      else 0
  | none => 0

/-- The amended specification total: sum of per-entry contributions, floored
to 2 decimals. -/
def amendedTotalCartAmount (ps : List Product) (c : Cart) : ℚ :=
  (⌊(c.map (entryContribution ps)).sum * 100⌋ : ℚ) / 100

/-- Every `updateCartItem` in a sequence of cart actions carries a positive
quantity (the other two actions are unrestricted). -/
def ActPositive : CartAction → Prop
  | CartAction.update _ q => 1 ≤ q
  | CartAction.add _ => True
  | CartAction.remove _ => True

instance (a : CartAction) : Decidable (ActPositive a) :=
  match a with
  | CartAction.add _ => isTrue trivial
  | CartAction.update _ q => inferInstanceAs (Decidable (1 ≤ q))
  | CartAction.remove _ => isTrue trivial

/-! ## Basic lemmas about the cart mapping operations -/

theorem truthyAt_iff {c : Cart} {k : String} :
    truthyAt c k = true ↔ ∃ v, getKey c k = some v ∧ v ≠ 0 := by
  unfold truthyAt
  cases h : getKey c k with
  | none => simp
  | some v => simp [bne_iff_ne]

theorem cartInv_getKey {c : Cart} {k : String} {v : Int} (hc : CartInv c)
    (h : getKey c k = some v) : 0 < v := by
  unfold getKey at h
  cases hf : c.find? (fun kv => kv.1 == k) with
  | none => rw [hf] at h; simp at h
  | some kv =>
      rw [hf] at h
      simp only [Option.map_some', Option.some.injEq] at h
      exact h ▸ hc kv (List.mem_of_find?_eq_some hf)

theorem cartInv_setKey {c : Cart} {k : String} {v : Int} (hc : CartInv c)
    (hv : 0 < v) : CartInv (setKey c k v) := by
  unfold setKey
  split
  · intro kv hkv
    obtain ⟨kv0, hkv0, heq⟩ := List.mem_map.mp hkv
    split at heq
    · subst heq; exact hv
    · subst heq; exact hc kv0 hkv0
  · intro kv hkv
    rcases List.mem_append.mp hkv with h | h
    · exact hc kv h
    · rw [List.mem_singleton.mp h]; exact hv

theorem cartInv_delKey {c : Cart} (k : String) (hc : CartInv c) :
    CartInv (delKey c k) :=
  fun kv hkv => hc kv (List.mem_of_mem_filter hkv)

theorem cartInv_newCartAdd {c : Cart} (itemId : String) (hc : CartInv c) :
    CartInv (newCartAdd c itemId) := by
  unfold newCartAdd
  split
  · next ht =>
      obtain ⟨v, hv, _⟩ := truthyAt_iff.mp ht
      have hvpos := cartInv_getKey hc hv
      rw [hv, Option.getD_some]
      exact cartInv_setKey hc (by omega)
  · exact cartInv_setKey hc Int.one_pos

theorem cartInv_newCartRemove {c : Cart} {itemId : String} (hc : CartInv c)
    (ht : truthyAt c itemId = true) : CartInv (newCartRemove c itemId) := by
  obtain ⟨v, hv, _⟩ := truthyAt_iff.mp ht
  have hvpos := cartInv_getKey hc hv
  unfold newCartRemove
  rw [hv, Option.getD_some]
  show CartInv (if v - 1 == 0 then delKey c itemId else setKey c itemId (v - 1))
  split
  · exact cartInv_delKey itemId hc
  · next h =>
      exact cartInv_setKey hc (by simp only [beq_iff_eq] at h; omega)

/-! ## How each cart mutation transforms the state -/

theorem addToCart_state (s : AppState) (itemId : String) (o : PushOutcome) :
    (addToCart s itemId o).state =
      match s.user with
      | none => { s with showUserLogin := true }
      | some _ => { s with cartItems := newCartAdd s.cartItems itemId } := by
  unfold addToCart
  cases s.user with
  | none => rfl
  | some u =>
      cases o <;> by_cases hb : s.backendConnected <;> simp [hb]

theorem addToCart_requests (s : AppState) (itemId : String) (o : PushOutcome) :
    (addToCart s itemId o).requests =
      match s.user with
      | none => []
      | some _ =>
          if s.backendConnected then
            [Request.cartUpdate (newCartAdd s.cartItems itemId)]
          else [] := by
  unfold addToCart
  cases s.user with
  | none => rfl
  | some u =>
      cases o <;> by_cases hb : s.backendConnected <;> simp [hb]

theorem updateCartItem_state (s : AppState) (itemId : String) (quantity : Int)
    (o : PushOutcome) :
    (updateCartItem s itemId quantity o).state =
      { s with cartItems := setKey s.cartItems itemId quantity } := by
  unfold updateCartItem
  by_cases h : s.backendConnected && s.user.isSome <;> simp [h]

theorem updateCartItem_requests (s : AppState) (itemId : String)
    (quantity : Int) (o : PushOutcome) :
    (updateCartItem s itemId quantity o).requests =
      if s.backendConnected && s.user.isSome then
        [Request.cartUpdate (setKey s.cartItems itemId quantity)]
      else [] := by
  unfold updateCartItem
  by_cases h : s.backendConnected && s.user.isSome <;> simp [h]

theorem removeFromCart_state (s : AppState) (itemId : String) (o : PushOutcome) :
    (removeFromCart s itemId o).state =
      if truthyAt s.cartItems itemId then
        { s with cartItems := newCartRemove s.cartItems itemId }
      else s := by
  unfold removeFromCart
  by_cases ht : truthyAt s.cartItems itemId <;>
    by_cases h : s.backendConnected && s.user.isSome <;> simp [ht, h]

theorem removeFromCart_requests (s : AppState) (itemId : String)
    (o : PushOutcome) :
    (removeFromCart s itemId o).requests =
      if truthyAt s.cartItems itemId && s.backendConnected && s.user.isSome then
        [Request.cartUpdate (newCartRemove s.cartItems itemId)]
      else [] := by
  unfold removeFromCart
  by_cases ht : truthyAt s.cartItems itemId <;>
    by_cases h : s.backendConnected && s.user.isSome <;>
      simp [ht, h, Bool.and_assoc]

theorem cartInv_applyCartAction {s : AppState} {ap : CartAction × PushOutcome}
    (hc : CartInv s.cartItems) (hq : ActPositive ap.1) :
    CartInv (applyCartAction s ap).cartItems := by
  obtain ⟨a, o⟩ := ap
  cases a with
  | add i =>
      show CartInv (addToCart s i o).state.cartItems
      rw [addToCart_state]
      cases s.user with
      | none => exact hc
      | some u => exact cartInv_newCartAdd i hc
  | update i q =>
      show CartInv (updateCartItem s i q o).state.cartItems
      rw [updateCartItem_state]
      exact cartInv_setKey hc (by have : 1 ≤ q := hq; omega)
  | remove i =>
      show CartInv (removeFromCart s i o).state.cartItems
      rw [removeFromCart_state]
      by_cases ht : truthyAt s.cartItems i
      · rw [if_pos ht]; exact cartInv_newCartRemove hc ht
      · rw [if_neg ht]; exact hc

theorem cartInv_runCartActions :
    ∀ (acts : List (CartAction × PushOutcome)) (s : AppState),
      CartInv s.cartItems → (∀ ap ∈ acts, ActPositive ap.1) →
      CartInv (runCartActions s acts).cartItems
  | [], _, hc, _ => hc
  | ap :: rest, s, hc, hall => by
      show CartInv (runCartActions (applyCartAction s ap) rest).cartItems
      exact cartInv_runCartActions rest (applyCartAction s ap)
        (cartInv_applyCartAction hc (hall ap (List.mem_cons_self ap rest)))
        (fun x hx => hall x (List.mem_cons_of_mem ap hx))

/-! ## Concrete fixtures for witnesses and counterexamples -/

/-- A concrete authenticated user with an empty server-side cart. -/
def demoUser : User := ⟨"u1", "Ada", "ada@example.com", some []⟩

/-- A concrete connected state with a logged-in user and empty cart. -/
def baseState : AppState :=
  { user := some demoUser, isSeller := false, showUserLogin := false,
    products := [], cartItems := [], searchQuery := "",
    backendConnected := true, backendChecking := false, loading := false }

/-- A user returned by a successful registration. -/
def regUser : User := ⟨"u2", "Bob", "bob@example.com", some []⟩

/-- A connected state whose cart already holds two of item `p1`. -/
def preRegState : AppState := { baseState with cartItems := [("p1", 2)] }

/-- A connected state with no authenticated user and a non-empty cart. -/
def anonState : AppState :=
  { baseState with user := none, cartItems := [("p1", 2)] }

/-- Product list and cart exhibiting the `offerPrice || price` divergence. -/
def zeroOfferProducts : List Product := [⟨"p1", 10, some 0⟩]

/-- Cart holding one unit of the zero-offer product. -/
def zeroOfferCart : Cart := [("p1", 1)]

/-! ## Claim C1 -/

/-- **C1** counterexample: starting from a cart state satisfying the
invariant, the single mutation `updateCartItem("p1", 0)` leaves a key mapped
to quantity 0 in `cartItems`, so the claimed invariant does not hold for all
mutation sequences. -/
theorem c1_counterexample :
    CartInv baseState.cartItems ∧
      ¬ CartInv (runCartActions baseState
          [(CartAction.update "p1" 0, PushOutcome.ok)]).cartItems := by
  constructor <;> decide

/-- **C1** (amended): for every sequence of cart mutation actions in which
every `updateCartItem` carries a positive quantity, starting from a cart
state whose quantities are all positive integers, every quantity stored in
`cartItems` stays a positive integer and no key maps to 0
(`updateCartItem` itself stores its argument unconditionally, so quantity 0
or a negative quantity would be stored as given). -/
theorem c1_cart_invariant (s : AppState)
    (acts : List (CartAction × PushOutcome))
    (hinv : CartInv s.cartItems) (hpos : ∀ ap ∈ acts, ActPositive ap.1) :
    CartInv (runCartActions s acts).cartItems :=
  cartInv_runCartActions acts s hinv hpos

/-- **C1** witness: a concrete run of add/update/remove actions from a
concrete state, with both hypotheses discharged by evaluation. -/
theorem c1_cart_invariant_witness :
    CartInv (runCartActions baseState
      [(CartAction.add "p1", PushOutcome.ok),
       (CartAction.add "p1", PushOutcome.err),
       (CartAction.update "p2" 3, PushOutcome.ok),
       (CartAction.remove "p1", PushOutcome.ok)]).cartItems :=
  c1_cart_invariant baseState
    [(CartAction.add "p1", PushOutcome.ok),
     (CartAction.add "p1", PushOutcome.err),
     (CartAction.update "p2" 3, PushOutcome.ok),
     (CartAction.remove "p1", PushOutcome.ok)]
    (by decide) (by decide)

/-! ## Claim C2 -/

/-- **C2** counterexample: a successful `userRegister` while connected
replaces `user` but leaves the pre-existing `cartItems` in place, which
differs from the new user's server-side cart — the swap is not atomic for
registration. -/
theorem c2_counterexample :
    (userRegister preRegState (LoginResult.ok regUser)).1.state.user
        = some regUser ∧
      (userRegister preRegState (LoginResult.ok regUser)).1.state.cartItems
        ≠ regUser.cart.getD [] := by
  constructor <;> decide

/-- **C2** (amended): while connected, a successful `userLogin` or
`googleLogin` replaces `user` and `cartItems` together from the server
response (`cartItems := user.cart || {}`), but a successful `userRegister`
replaces only `user` and leaves `cartItems` unchanged. -/
theorem c2_auth_replacement (s : AppState) (u : User)
    (hb : s.backendConnected = true) :
    ((userLogin s (LoginResult.ok u)).1.state.user = some u ∧
      (userLogin s (LoginResult.ok u)).1.state.cartItems = u.cart.getD []) ∧
    ((googleLogin s (LoginResult.ok u)).1.state.user = some u ∧
      (googleLogin s (LoginResult.ok u)).1.state.cartItems = u.cart.getD []) ∧
    ((userRegister s (LoginResult.ok u)).1.state.user = some u ∧
      (userRegister s (LoginResult.ok u)).1.state.cartItems = s.cartItems) := by
  simp [userLogin, googleLogin, userRegister, hb]

/-- **C2** witness: the amended statement at a concrete connected state and
a concrete server user. -/
theorem c2_auth_replacement_witness :
    ((userLogin preRegState (LoginResult.ok demoUser)).1.state.user
          = some demoUser ∧
      (userLogin preRegState (LoginResult.ok demoUser)).1.state.cartItems
          = demoUser.cart.getD []) ∧
    ((googleLogin preRegState (LoginResult.ok demoUser)).1.state.user
          = some demoUser ∧
      (googleLogin preRegState (LoginResult.ok demoUser)).1.state.cartItems
          = demoUser.cart.getD []) ∧
    ((userRegister preRegState (LoginResult.ok demoUser)).1.state.user
          = some demoUser ∧
      (userRegister preRegState (LoginResult.ok demoUser)).1.state.cartItems
          = preRegState.cartItems) :=
  c2_auth_replacement preRegState demoUser rfl

/-! ## Claim C3 -/

/-- The accumulator-passing loop of `totalCartAmount` equals the sum of the
per-entry contributions. -/
theorem foldl_entryContribution (ps : List Product) :
    ∀ (c : Cart) (a : ℚ),
      c.foldl (fun acc kv =>
        match ps.find? (fun p => p.pid == kv.1) with
        | some itemInfo =>
            if 0 < kv.2 then
              acc + (kv.2 : ℚ) * jsOrPrice itemInfo.offerPrice itemInfo.price
            else acc
        | none => acc) a = a + (c.map (entryContribution ps)).sum
  | [], a => by simp
  | kv :: rest, a => by
      rw [List.foldl_cons, List.map_cons, List.sum_cons,
        foldl_entryContribution ps rest]
      unfold entryContribution
      cases hf : ps.find? (fun p => p.pid == kv.1) with
      | none => simp [hf]
      | some p =>
          by_cases h2 : 0 < kv.2
          · simp [hf, h2]
            ring
          · simp [hf, h2]

/-- **C3** counterexample: with `offerPrice = 0` the code's
`offerPrice || price` falls back to the list price (JS `0` is falsy), while
the spec's "offerPrice if present" uses 0 — so `totalCartAmount` differs
from the spec formula at this concrete input (10 versus 0). -/
theorem c3_counterexample :
    totalCartAmount zeroOfferProducts zeroOfferCart = 10 ∧
    specTotalCartAmount zeroOfferProducts zeroOfferCart = 0 ∧
    totalCartAmount zeroOfferProducts zeroOfferCart ≠
      specTotalCartAmount zeroOfferProducts zeroOfferCart := by
  refine ⟨?_, ?_, ?_⟩ <;>
    simp [totalCartAmount, specTotalCartAmount, zeroOfferProducts,
      zeroOfferCart, jsOrPrice, List.find?] <;> norm_num

/-- **C3** (amended): `totalCartAmount()` returns the sum over cart entries
of quantity times effective price — where the effective price is
`offerPrice` if present and nonzero, else `price`, and entries whose id is
absent from the products list or whose quantity is not positive contribute
0 — floored to 2 decimal places; in particular
products=[{id:"p1", price:10, offerPrice:8}] with cart={p1:3} yields 24.00. -/
theorem c3_total_amount (ps : List Product) (c : Cart) :
    totalCartAmount ps c = amendedTotalCartAmount ps c ∧
    totalCartAmount [⟨"p1", 10, some 8⟩] [("p1", 3)] = 24 := by
  constructor
  · simp only [totalCartAmount, amendedTotalCartAmount]
    rw [foldl_entryContribution ps c 0, zero_add]
  · simp [totalCartAmount, jsOrPrice, List.find?]
    norm_num

/-! ## Claim C4 -/

/-- **C4** counterexample: with no authenticated user and the backend
connected, `removeFromCart("p1")` still mutates `cartItems` (2 becomes 1)
and does not set the show-login-prompt flag — the claimed login gate only
exists in `addToCart`. -/
theorem c4_counterexample :
    anonState.user = none ∧ anonState.backendConnected = true ∧
    (removeFromCart anonState "p1" PushOutcome.ok).state.cartItems
        ≠ anonState.cartItems ∧
    (removeFromCart anonState "p1" PushOutcome.ok).state.showUserLogin
        = false := by
  refine ⟨rfl, rfl, ?_, ?_⟩ <;> decide

/-- **C4** (amended): when no authenticated user is present (whatever the
connectivity), `addToCart` leaves `cartItems` unchanged, sets the
show-login-prompt flag and issues no request; `updateCartItem` and
`removeFromCart` perform no user check — they apply their mutation to
`cartItems` and merely skip the backend push. -/
theorem c4_no_user_behavior (s : AppState) (itemId : String) (q : Int)
    (o : PushOutcome) (hu : s.user = none) :
    (addToCart s itemId o).state.cartItems = s.cartItems ∧
    (addToCart s itemId o).state.showUserLogin = true ∧
    (addToCart s itemId o).requests = [] ∧
    (updateCartItem s itemId q o).state.cartItems
        = setKey s.cartItems itemId q ∧
    (updateCartItem s itemId q o).requests = [] ∧
    (removeFromCart s itemId o).requests = [] := by
  refine ⟨?_, ?_, ?_, ?_, ?_, ?_⟩
  · rw [addToCart_state, hu]
  · rw [addToCart_state, hu]
  · rw [addToCart_requests, hu]
  · rw [updateCartItem_state]
  · rw [updateCartItem_requests, hu]; simp
  · rw [removeFromCart_requests, hu]; simp

/-- **C4** witness: the amended statement at the concrete anonymous
connected state. -/
theorem c4_no_user_behavior_witness :
    (addToCart anonState "p1" PushOutcome.ok).state.cartItems
        = anonState.cartItems ∧
    (addToCart anonState "p1" PushOutcome.ok).state.showUserLogin = true ∧
    (addToCart anonState "p1" PushOutcome.ok).requests = [] ∧
    (updateCartItem anonState "p1" 5 PushOutcome.ok).state.cartItems
        = setKey anonState.cartItems "p1" 5 ∧
    (updateCartItem anonState "p1" 5 PushOutcome.ok).requests = [] ∧
    (removeFromCart anonState "p1" PushOutcome.ok).requests = [] :=
  c4_no_user_behavior anonState "p1" 5 PushOutcome.ok rfl

/-! ## Claim C5 -/

/-- The connectivity flag `checkBackendConnection` ends up storing (and
returning): a URL is configured and the health call produced a response
that `validateStatus` (status < 500) resolves. -/
def connFlag (hasUrl : Bool) (o : HealthOutcome) : Bool :=
  hasUrl && (match o with
    | HealthOutcome.response status => decide (status < 500)
    | HealthOutcome.netError => false
    | HealthOutcome.timeout => false)

/-- Closed form of `checkBackendConnection`. -/
theorem checkBackendConnection_eq (s : AppState) (hasUrl : Bool)
    (o : HealthOutcome) :
    checkBackendConnection s hasUrl o =
      (⟨{ s with backendConnected := connFlag hasUrl o,
                 backendChecking := false },
        if hasUrl then [Request.health] else [], []⟩,
       connFlag hasUrl o) := by
  cases hasUrl with
  | false => cases o <;> simp [checkBackendConnection, connFlag]
  | true =>
      cases o with
      | response status =>
          by_cases h : status < 500 <;>
            simp [checkBackendConnection, connFlag, h]
      | netError => simp [checkBackendConnection, connFlag]
      | timeout => simp [checkBackendConnection, connFlag]

/-- **C5**: `checkBackendConnection` is a total function returning a
boolean (never throwing: every outcome of the awaited call, including
network error and timeout, is an explicit branch); `backendChecking` ends
false in every outcome, the returned boolean always equals the stored
connectivity flag, a successful (2xx) health response yields
connected = true, and any failure — network error, timeout or 5xx
response — yields connected = false. -/
theorem c5_check_backend (s : AppState) (hasUrl : Bool) (o : HealthOutcome) :
    (checkBackendConnection s hasUrl o).1.state.backendChecking = false ∧
    (checkBackendConnection s hasUrl o).2
        = (checkBackendConnection s hasUrl o).1.state.backendConnected ∧
    (∀ status, hasUrl = true → o = HealthOutcome.response status →
      status ≤ 299 →
      (checkBackendConnection s hasUrl o).1.state.backendConnected = true ∧
      (checkBackendConnection s hasUrl o).2 = true) ∧
    ((o = HealthOutcome.netError ∨ o = HealthOutcome.timeout ∨
        (∃ status, o = HealthOutcome.response status ∧ 500 ≤ status)) →
      (checkBackendConnection s hasUrl o).1.state.backendConnected = false ∧
      (checkBackendConnection s hasUrl o).2 = false) := by
  rw [checkBackendConnection_eq]
  refine ⟨rfl, rfl, ?_, ?_⟩
  · intro status hUrl ho hstatus
    subst hUrl
    subst ho
    have h5 : status < 500 := by omega
    simp [connFlag, h5]
  · intro h
    rcases h with h | h | ⟨status, h, hs⟩ <;> subst h
    · simp [connFlag]
    · simp [connFlag]
    · have h5 : ¬ status < 500 := by omega
      simp [connFlag, h5]

/-- **C5** witness: a 200 health response marks connected, a network error
marks disconnected, both with `backendChecking` false. -/
theorem c5_check_backend_witness :
    ((checkBackendConnection baseState true
        (HealthOutcome.response 200)).1.state.backendConnected = true ∧
      (checkBackendConnection baseState true
        (HealthOutcome.response 200)).2 = true) ∧
    ((checkBackendConnection baseState true
        HealthOutcome.netError).1.state.backendConnected = false ∧
      (checkBackendConnection baseState true
        HealthOutcome.netError).2 = false) ∧
    (checkBackendConnection baseState true
        HealthOutcome.timeout).1.state.backendChecking = false :=
  ⟨(c5_check_backend baseState true (HealthOutcome.response 200)).2.2.1
      200 rfl rfl (by decide),
   (c5_check_backend baseState true HealthOutcome.netError).2.2.2
      (Or.inl rfl),
   (c5_check_backend baseState true HealthOutcome.timeout).1⟩

/-! ## Claim C6 -/

/-- **C6**: while connected, a failed login — whether the server rejected
the credentials or the request itself errored, with or without a server
message — leaves the pre-existing `user` (and `cartItems`) exactly as they
were. -/
theorem c6_failed_login (s : AppState) (m : Option String)
    (hb : s.backendConnected = true) :
    (userLogin s (LoginResult.rejected m)).1.state.user = s.user ∧
    (userLogin s (LoginResult.rejected m)).1.state.cartItems = s.cartItems ∧
    (userLogin s (LoginResult.netErr m)).1.state.user = s.user ∧
    (userLogin s (LoginResult.netErr m)).1.state.cartItems = s.cartItems := by
  cases m <;> simp [userLogin, hb]

/-- **C6** witness: a rejected and an erroring login at a concrete
connected state with a previously authenticated user. -/
theorem c6_failed_login_witness :
    (userLogin baseState
        (LoginResult.rejected (some "Invalid credentials"))).1.state.user
      = baseState.user ∧
    (userLogin baseState
        (LoginResult.rejected (some "Invalid credentials"))).1.state.cartItems
      = baseState.cartItems ∧
    (userLogin baseState
        (LoginResult.netErr (some "Invalid credentials"))).1.state.user
      = baseState.user ∧
    (userLogin baseState
        (LoginResult.netErr (some "Invalid credentials"))).1.state.cartItems
      = baseState.cartItems :=
  c6_failed_login baseState (some "Invalid credentials") rfl

/-! ## Claim C7 -/

/-- **C7**: for every cart mutation the local state is independent of the
backend push outcome (a push failure never rolls the optimistic update
back), and every issued cart-update request carries exactly the cart
mapping already applied to local state. -/
theorem c7_optimistic_update (s : AppState) (itemId : String) (q : Int)
    (o : PushOutcome) :
    ((addToCart s itemId o).state = (addToCart s itemId PushOutcome.ok).state ∧
      ((addToCart s itemId o).requests = [] ∨
        (addToCart s itemId o).requests
          = [Request.cartUpdate (addToCart s itemId o).state.cartItems])) ∧
    ((updateCartItem s itemId q o).state
        = (updateCartItem s itemId q PushOutcome.ok).state ∧
      ((updateCartItem s itemId q o).requests = [] ∨
        (updateCartItem s itemId q o).requests
          = [Request.cartUpdate
              (updateCartItem s itemId q o).state.cartItems])) ∧
    ((removeFromCart s itemId o).state
        = (removeFromCart s itemId PushOutcome.ok).state ∧
      ((removeFromCart s itemId o).requests = [] ∨
        (removeFromCart s itemId o).requests
          = [Request.cartUpdate
              (removeFromCart s itemId o).state.cartItems])) := by
  refine ⟨⟨?_, ?_⟩, ⟨?_, ?_⟩, ⟨?_, ?_⟩⟩
  · rw [addToCart_state, addToCart_state]
  · rw [addToCart_requests, addToCart_state]
    cases s.user with
    | none => exact Or.inl rfl
    | some u =>
        by_cases hb : s.backendConnected
        · right; simp [hb]
        · left; simp [hb]
  · rw [updateCartItem_state, updateCartItem_state]
  · rw [updateCartItem_requests, updateCartItem_state]
    by_cases hc : s.backendConnected && s.user.isSome
    · right; simp [hc]
    · left; simp [hc]
  · rw [removeFromCart_state, removeFromCart_state]
  · rw [removeFromCart_requests]
    by_cases ht : truthyAt s.cartItems itemId
    · by_cases hc : s.backendConnected && s.user.isSome
      · right
        rw [removeFromCart_state, if_pos ht]
        simp [ht, hc, Bool.and_assoc]
      · left
        simp [ht, hc, Bool.and_assoc]
    · left
      simp [ht]

/-! ## Claim C8 -/

/-- **C8**: with the connectivity flag false, each data loader issues no
request and falls back deterministically — `fetchProducts` empties the
product list (and clears `loading`), `fetchUser` changes nothing, and
`fetchSeller` sets `isSeller` to false — whatever response its request
would have produced. -/
theorem c8_disconnected_loaders (s : AppState) (po : ProductsOutcome)
    (uo : UserAuthOutcome) (so : SellerAuthOutcome)
    (hb : s.backendConnected = false) :
    (fetchProducts s po).requests = [] ∧
    (fetchProducts s po).state = { s with products := [], loading := false } ∧
    (fetchUser s uo).requests = [] ∧
    (fetchUser s uo).state = s ∧
    (fetchSeller s so).requests = [] ∧
    (fetchSeller s so).state = { s with isSeller := false } := by
  simp [fetchProducts, fetchUser, fetchSeller, hb]

/-- **C8** witness: the three loaders at a concrete disconnected state. -/
theorem c8_disconnected_loaders_witness :
    (fetchProducts { baseState with backendConnected := false }
        ProductsOutcome.err).requests = [] ∧
    (fetchProducts { baseState with backendConnected := false }
        ProductsOutcome.err).state
      = { { baseState with backendConnected := false } with
          products := [], loading := false } ∧
    (fetchUser { baseState with backendConnected := false }
        UserAuthOutcome.err).requests = [] ∧
    (fetchUser { baseState with backendConnected := false }
        UserAuthOutcome.err).state
      = { baseState with backendConnected := false } ∧
    (fetchSeller { baseState with backendConnected := false }
        SellerAuthOutcome.err).requests = [] ∧
    (fetchSeller { baseState with backendConnected := false }
        SellerAuthOutcome.err).state
      = { { baseState with backendConnected := false } with
          isSeller := false } :=
  c8_disconnected_loaders { baseState with backendConnected := false }
    ProductsOutcome.err UserAuthOutcome.err SellerAuthOutcome.err rfl

/-! ## Claim C9 -/

/-- **C9**: `userLogout` always clears `user`, `cartItems` and `isSeller`
and toasts a confirmation — whether disconnected (no request) or connected
(one best-effort logout request) and whether that request succeeds or
fails (the outcome parameter does not influence the result at all). -/
theorem c9_logout (s : AppState) (o : PushOutcome) :
    (userLogout s o).state.user = none ∧
    (userLogout s o).state.cartItems = [] ∧
    (userLogout s o).state.isSeller = false ∧
    (userLogout s o).toasts = [Toast.success "Logged out successfully"] ∧
    (userLogout s o).requests
      = (if s.backendConnected then [Request.logoutReq] else []) := by
  simp [userLogout]

/-! ## Claim C10 -/

/-- **C10**: `removeFromCart(itemId)` for an id absent from `cartItems` is
a complete no-op: the state is unchanged, and no request and no toast is
produced. -/
theorem c10_remove_absent (s : AppState) (itemId : String) (o : PushOutcome)
    (h : getKey s.cartItems itemId = none) :
    removeFromCart s itemId o = ⟨s, [], []⟩ := by
  have ht : truthyAt s.cartItems itemId = false := by
    unfold truthyAt
    rw [h]
  unfold removeFromCart
  simp [ht]

/-- **C10** witness: removing a never-added id from a concrete state. -/
theorem c10_remove_absent_witness :
    removeFromCart baseState "unknown-item" PushOutcome.ok
      = ⟨baseState, [], []⟩ :=
  c10_remove_absent baseState "unknown-item" PushOutcome.ok rfl

end Velvoria
